import Mathlib

/-!
Shallow embedding of `src/main.go` (golu7059/Go-Fiber-auth): a minimal
credential service with two HTTP handlers, `registerUser` (POST /register)
and `loginUser` (POST /login), a gorm/sqlite store whose `users` table has a
UNIQUE constraint on `email`, and bcrypt password hashing.

Modelling conventions:
  - The transport layer (fiber) is modelled by its observable outcome: a
    handler receives `Option body` (`none` = `c.BodyParser` failed) and
    returns a `Response` (status code plus JSON object as a key/value list).
  - The store (`db`) is a list of persisted `User` records plus a counter
    for the auto-assigned primary key.  `db.Create` fails exactly when the
    UNIQUE constraint on `email` is violated; `db.Where("email = ?").First`
    returns the first record (by insertion/primary-key order) whose email
    matches, or a record-not-found error.
  - bcrypt is an external library (`golang.org/x/crypto/bcrypt`); it is
    modelled symbolically: a hash output is a structured blob carrying the
    cost, the per-call random salt (passed in explicitly as a parameter,
    since the embedding is deterministic), and the one-way image of the
    password, which we represent by the password itself so that
    verification succeeds exactly on the generating password.
-/

/-- The parsed JSON body of a registration request: the `User` struct of
`main.go` as filled in by `c.BodyParser` (lines 17-22, 75-80).  The
`Password` field here is still the plaintext from the request. -/
structure RegisterBody where
  Name : String
  Email : String
  Password : String
deriving DecidableEq, Repr

/-- The parsed JSON body of a login request: the anonymous struct of
`loginUser` (main.go lines 113-116). -/
structure LoginBody where
  Email : String
  Password : String
deriving DecidableEq, Repr

/-- A credential blob as stored in the `password` column.  In the source it
is a `string`; reachable states always hold a bcrypt hash
(`string(hashedPassword)`, main.go line 96), but the column itself can hold
any bytes, which the `raw` constructor models (e.g. a malformed stored
hash). -/
inductive StoredCred where
  /-- A well-formed bcrypt output: cost, embedded random salt, and the
  one-way image of the generating password (represented symbolically by
  the password itself). -/
  | bcryptHash (cost : Nat) (salt : Nat) (key : String)
  /-- Any non-bcrypt blob in the password column. -/
  | raw (s : String)
deriving DecidableEq, Repr

/-- A persisted account record: the `User` struct of main.go lines 17-22 as
it sits in the database after `registerUser` line 96 replaced the plaintext
with the bcrypt hash.  `ID` is the gorm auto-assigned primary key. -/
structure User where
  ID : Nat
  Name : String
  Email : String
  Password : StoredCred
deriving DecidableEq, Repr

/-- The database handle state: persisted records in primary-key order plus
the next auto-increment id. -/
structure DB where
  users : List User
  nextID : Nat
deriving DecidableEq, Repr

/-- Value of `bcrypt.DefaultCost` (golang.org/x/crypto/bcrypt). -/
def DefaultCost : Nat := 10

/-- Value of `bcrypt.MaxCost`. -/
def MaxCost : Nat := 31

/-- Outcome of `bcrypt.CompareHashAndPassword`: `nil`, the mismatch error,
or any other (verification-mechanism) error such as a malformed hash. -/
inductive CompareResult where
  | ok
  | mismatch
  | invalidHash
deriving DecidableEq, Repr

/-- Modelled from the spec: `bcrypt.GenerateFromPassword` of the external
library `golang.org/x/crypto/bcrypt`, whose source is not part of this
repository.  Per the spec (section 4.2 step 2) it derives a salted one-way
hash embedding a fresh random salt per call; the salt is made an explicit
parameter here.  It fails for a cost above the maximum (31). -/
def GenerateFromPassword (password : String) (cost : Nat) (salt : Nat) :
    Except Unit StoredCred :=
  if cost ≤ MaxCost then .ok (.bcryptHash cost salt password)
  else .error ()

/-- Modelled from the spec: `bcrypt.CompareHashAndPassword` of the external
library.  It succeeds exactly when the supplied plaintext is the password
the stored hash was generated from; a blob that is not a bcrypt hash yields
a verification-mechanism error distinct from a mismatch. -/
def CompareHashAndPassword (hashed : StoredCred) (password : String) :
    CompareResult :=
  match hashed with
  | .bcryptHash _ _ key => if key = password then .ok else .mismatch
  | .raw _ => .invalidHash

/-- Model of `db.Create(user)` (main.go line 99): inserts a fresh record with the
next primary key, or fails when the UNIQUE constraint on `email` (main.go
line 20, `gorm:"unique"`) is violated. -/
def dbCreate (db : DB) (name email : String) (cred : StoredCred) :
    Except Unit DB :=
  if db.users.any (fun a => a.Email == email) then .error ()
  else .ok ⟨db.users ++ [⟨db.nextID, name, email, cred⟩], db.nextID + 1⟩

/-- Model of the lookup `db.Where` + `First` (main.go line 132): the first
record in primary-key order whose email equals `e`, if any. -/
def findByEmail (db : DB) (email : String) : Option User :=
  db.users.find? (fun a => a.Email == email)

/-- An HTTP response as produced by the handlers: status code and JSON
object body (`fiber.Map`).  `c.JSON` without an explicit status sends
200. -/
structure Response where
  status : Nat
  body : List (String × String)
deriving DecidableEq, Repr

/-- Handler `registerUser` (main.go lines 73-108).  `body = none` models a
`c.BodyParser` failure; `salt` is the random salt bcrypt draws for this
call.  Returns the response together with the database state after the
request. -/
def registerUser (body : Option RegisterBody) (salt : Nat) (db : DB) :
    Response × DB :=
  match body with
  | none => (⟨400, [("error", "Failed to parse request body")]⟩, db)
  | some u =>
    if u.Name = "" ∨ u.Email = "" ∨ u.Password = "" then
      (⟨400, [("error", "Name, email, and password are required")]⟩, db)
    else
      match GenerateFromPassword u.Password DefaultCost salt with
      | .error _ => (⟨500, [("error", "Failed to hash password")]⟩, db)
      | .ok hashed =>
        match dbCreate db u.Name u.Email hashed with
        | .error _ =>
          (⟨500, [("error", "Failed to save user to database")]⟩, db)
        | .ok db' =>
          (⟨200, [("message", "User registered successfully")]⟩, db')

/-- Handler `loginUser` (main.go lines 111-149).  `body = none` models a
`c.BodyParser` failure.  The handler never writes to the store, so it
returns only the response. -/
def loginUser (body : Option LoginBody) (db : DB) : Response :=
  match body with
  | none => ⟨400, [("error", "Failed to parse request body")]⟩
  | some input =>
    if input.Email = "" ∨ input.Password = "" then
      ⟨400, [("error", "Email and password are required")]⟩
    else
      match findByEmail db input.Email with
      | none => ⟨401, [("error", "Invalid email or password")]⟩
      | some user =>
        match CompareHashAndPassword user.Password input.Password with
        | .ok => ⟨200, [("message", "Login successful")]⟩
        | _ => ⟨401, [("error", "Invalid email or password")]⟩

/-- The empty database the service starts from (fresh sqlite file after
`AutoMigrate`). -/
def emptyDB : DB := ⟨[], 1⟩

/-- The one fixed 401 response of `loginUser` (main.go lines 132-143),
returned both for an unknown email and for a failed password comparison. -/
def unauthorizedResponse : Response :=
  ⟨401, [("error", "Invalid email or password")]⟩

/-- The database state after registering Ann on the empty store (the spec's
concrete scenario), with salt 0 drawn for the bcrypt call. -/
def annDB : DB := (registerUser (some ⟨"Ann", "ann@x.com", "s3cret"⟩) 0 emptyDB).2

/-- A store state whose single record carries a malformed (non-bcrypt)
credential blob in the password column. -/
def badDB : DB := ⟨[⟨1, "Bob", "bob@x.com", .raw "not-a-bcrypt-hash"⟩], 2⟩

/-- At the default cost the handler uses, bcrypt hash generation always
succeeds, yielding a hash that embeds the supplied salt. -/
theorem generate_defaultCost (p : String) (salt : Nat) :
    GenerateFromPassword p DefaultCost salt =
      Except.ok (.bcryptHash DefaultCost salt p) := rfl

/-- C10: for every request whose body cannot be parsed, both handlers
return HTTP 400 with body error = Failed to parse request body, before any
validation, hashing, or store access, and the store is unchanged. -/
theorem unparsable_body_returns_400_store_unchanged (salt : Nat) (db : DB) :
    registerUser none salt db =
      (⟨400, [("error", "Failed to parse request body")]⟩, db) ∧
    loginUser none db = ⟨400, [("error", "Failed to parse request body")]⟩ :=
  ⟨rfl, rfl⟩

/-- C3: for every store state and non-empty email and password, a login
whose email matches no stored account and a login that reaches a stored
account whose password comparison fails produce the very same response:
status 401 with error = Invalid email or password, so the response does not
reveal whether the identifier is registered. -/
theorem login_unknown_email_and_wrong_password_indistinguishable
    (db : DB) (e p : String) (he : e ≠ "") (hp : p ≠ "") :
    (findByEmail db e = none →
      loginUser (some ⟨e, p⟩) db = unauthorizedResponse) ∧
    (∀ u, findByEmail db e = some u →
      CompareHashAndPassword u.Password p ≠ .ok →
      loginUser (some ⟨e, p⟩) db = unauthorizedResponse) := by
  constructor
  · intro hfind
    simp [loginUser, he, hp, hfind, unauthorizedResponse]
  · intro u hfind hcmp
    cases hc : CompareHashAndPassword u.Password p with
    | ok => exact absurd hc hcmp
    | mismatch => simp [loginUser, he, hp, hfind, hc, unauthorizedResponse]
    | invalidHash => simp [loginUser, he, hp, hfind, hc, unauthorizedResponse]

/-- Witness for C3 at concrete inputs: an unknown email and a wrong
password against Ann's stored account give the identical 401 response. -/
theorem login_unknown_email_and_wrong_password_indistinguishable_witness :
    loginUser (some ⟨"nobody@x.com", "s3cret"⟩) annDB = unauthorizedResponse ∧
    loginUser (some ⟨"ann@x.com", "wrong"⟩) annDB = unauthorizedResponse :=
  ⟨(login_unknown_email_and_wrong_password_indistinguishable annDB
      ("nobody@x.com") ("s3cret") (by decide) (by decide)).1 (by decide),
   (login_unknown_email_and_wrong_password_indistinguishable annDB
      ("ann@x.com") ("wrong") (by decide) (by decide)).2
      ⟨1, "Ann", "ann@x.com", .bcryptHash 10 0 "s3cret"⟩ (by decide) (by decide)⟩

/-- C5 counterexample: with a malformed (non-bcrypt) blob stored as the
credential, login with the matching email returns 401 Invalid email or
password, not the InternalError (500) the claim requires. -/
theorem malformed_hash_login_returns_401_counterexample :
    loginUser (some ⟨"bob@x.com", "anything"⟩) badDB = unauthorizedResponse ∧
    (loginUser (some ⟨"bob@x.com", "anything"⟩) badDB).status ≠ 500 := by
  decide

/-- C5 amended: during login, a verification-mechanism error (a malformed
stored credential) yields the same UnauthorizedError response (401,
Invalid email or password) as a password mismatch; the handler has no
InternalError branch after the lookup. -/
theorem malformed_hash_login_returns_unauthorized
    (db : DB) (e p s : String) (u : User) (he : e ≠ "") (hp : p ≠ "")
    (hfind : findByEmail db e = some u) (hraw : u.Password = .raw s) :
    loginUser (some ⟨e, p⟩) db = unauthorizedResponse := by
  simp [loginUser, he, hp, hfind, hraw, CompareHashAndPassword,
    unauthorizedResponse]

/-- Witness for amended C5 at a concrete store with a malformed stored
credential. -/
theorem malformed_hash_login_returns_unauthorized_witness :
    loginUser (some ⟨"bob@x.com", "pw"⟩) badDB = unauthorizedResponse :=
  malformed_hash_login_returns_unauthorized badDB ("bob@x.com") ("pw")
    ("not-a-bcrypt-hash") ⟨1, "Bob", "bob@x.com", .raw "not-a-bcrypt-hash"⟩
    (by decide) (by decide) (by decide) (by decide)

/-- C7: hashing the same password with two distinct freshly drawn salts
yields two different hash outputs, and verification of the password
succeeds against either output, with no separately stored salt. -/
theorem hash_twice_differs_and_both_verify
    (p : String) (s1 s2 : Nat) (hne : s1 ≠ s2) :
    GenerateFromPassword p DefaultCost s1 ≠
      GenerateFromPassword p DefaultCost s2 ∧
    (∀ h1, GenerateFromPassword p DefaultCost s1 = .ok h1 →
      CompareHashAndPassword h1 p = .ok) ∧
    (∀ h2, GenerateFromPassword p DefaultCost s2 = .ok h2 →
      CompareHashAndPassword h2 p = .ok) := by
  refine ⟨?_, ?_, ?_⟩
  · simp [generate_defaultCost, hne]
  · intro h1 heq
    rw [generate_defaultCost] at heq
    cases heq
    simp [CompareHashAndPassword]
  · intro h2 heq
    rw [generate_defaultCost] at heq
    cases heq
    simp [CompareHashAndPassword]

/-- Witness for C7 at a concrete password and two concrete salts. -/
theorem hash_twice_differs_and_both_verify_witness :
    (0 : Nat) ≠ 1 ∧
    (GenerateFromPassword "s3cret" DefaultCost 0 ≠
        GenerateFromPassword "s3cret" DefaultCost 1 ∧
      (∀ h1, GenerateFromPassword "s3cret" DefaultCost 0 = .ok h1 →
        CompareHashAndPassword h1 "s3cret" = .ok) ∧
      (∀ h2, GenerateFromPassword "s3cret" DefaultCost 1 = .ok h2 →
        CompareHashAndPassword h2 "s3cret" = .ok)) :=
  ⟨by decide, hash_twice_differs_and_both_verify ("s3cret") 0 1 (by decide)⟩

/-- C6: a registration request returns the ValidationError response (400,
fields required) with the store unchanged exactly when name, email, or
password is the empty string, and a login request returns its
ValidationError response exactly when email or password is the empty
string; emptiness is exact, with no whitespace trimming. -/
theorem empty_required_field_returns_validation_error
    (u : RegisterBody) (li : LoginBody) (salt : Nat) (db : DB) :
    (registerUser (some u) salt db =
        (⟨400, [("error", "Name, email, and password are required")]⟩, db) ↔
      (u.Name = "" ∨ u.Email = "" ∨ u.Password = "")) ∧
    (loginUser (some li) db =
        ⟨400, [("error", "Email and password are required")]⟩ ↔
      (li.Email = "" ∨ li.Password = "")) := by
  constructor
  · by_cases hv : u.Name = "" ∨ u.Email = "" ∨ u.Password = ""
    · simp [registerUser, hv]
    · simp only [registerUser, if_neg hv, generate_defaultCost, hv, iff_false]
      cases hc : dbCreate db u.Name u.Email
          (.bcryptHash DefaultCost salt u.Password) with
      | error e => simp
      | ok db' => simp
  · by_cases hv : li.Email = "" ∨ li.Password = ""
    · simp [loginUser, hv]
    · simp only [loginUser, if_neg hv, hv, iff_false]
      cases hf : findByEmail db li.Email with
      | none => simp
      | some w =>
        cases hc : CompareHashAndPassword w.Password li.Password <;> simp [hc]

/-- C1: for non-empty name, email, and password, a successful registration
(HTTP 200) followed immediately by a login with the same email and
password returns the login success outcome: 200 with message = Login
successful. -/
theorem register_then_login_succeeds
    (u : RegisterBody) (salt : Nat) (db : DB)
    (hn : u.Name ≠ "") (he : u.Email ≠ "") (hp : u.Password ≠ "")
    (h200 : (registerUser (some u) salt db).1.status = 200) :
    loginUser (some ⟨u.Email, u.Password⟩) (registerUser (some u) salt db).2 =
      ⟨200, [("message", "Login successful")]⟩ := by
  have hv : ¬(u.Name = "" ∨ u.Email = "" ∨ u.Password = "") := by tauto
  cases hany : db.users.any (fun a => a.Email == u.Email) with
  | true =>
    exfalso
    simp [registerUser, if_neg hv, generate_defaultCost, dbCreate, hany] at h200
  | false =>
    have hreg : registerUser (some u) salt db =
        (⟨200, [("message", "User registered successfully")]⟩,
         ⟨db.users ++ [⟨db.nextID, u.Name, u.Email,
            .bcryptHash DefaultCost salt u.Password⟩], db.nextID + 1⟩) := by
      simp [registerUser, if_neg hv, generate_defaultCost, dbCreate, hany]
    rw [hreg]
    have hfindnone : db.users.find? (fun a => a.Email == u.Email) = none := by
      rw [List.find?_eq_none]
      intro x hx
      exact (List.any_eq_false.mp hany) x hx
    have hfind : findByEmail ⟨db.users ++ [⟨db.nextID, u.Name, u.Email,
        .bcryptHash DefaultCost salt u.Password⟩], db.nextID + 1⟩ u.Email =
        some ⟨db.nextID, u.Name, u.Email,
          .bcryptHash DefaultCost salt u.Password⟩ := by
      unfold findByEmail
      rw [List.find?_append, hfindnone]
      simp
    simp [loginUser, he, hp, hfind, CompareHashAndPassword]

/-- Witness for C1: registering Ann on the empty store succeeds and the
immediate login with the same credentials returns 200 Login successful. -/
theorem register_then_login_succeeds_witness :
    (registerUser (some ⟨"Ann", "ann@x.com", "s3cret"⟩) 0 emptyDB).1.status
        = 200 ∧
    loginUser (some ⟨"ann@x.com", "s3cret"⟩)
        (registerUser (some ⟨"Ann", "ann@x.com", "s3cret"⟩) 0 emptyDB).2 =
      ⟨200, [("message", "Login successful")]⟩ :=
  ⟨by decide, register_then_login_succeeds ⟨"Ann", "ann@x.com", "s3cret"⟩ 0
    emptyDB (by decide) (by decide) (by decide) (by decide)⟩

/-- C2: a second registration with an already-stored email never succeeds
(status is not 200) and leaves the store unchanged, hence with exactly one
account for that email; and every registration request preserves the global
uniqueness of stored emails. -/
theorem duplicate_register_rejected_and_email_uniqueness_preserved :
    (∀ (u : RegisterBody) (salt : Nat) (db : DB),
      (∃ a ∈ db.users, a.Email = u.Email) →
      (registerUser (some u) salt db).1.status ≠ 200 ∧
      (registerUser (some u) salt db).2 = db ∧
      (db.users.countP (fun a => a.Email == u.Email) = 1 →
        (registerUser (some u) salt db).2.users.countP
          (fun a => a.Email == u.Email) = 1)) ∧
    (∀ (body : Option RegisterBody) (salt : Nat) (db : DB),
      (db.users.map User.Email).Nodup →
      ((registerUser body salt db).2.users.map User.Email).Nodup) := by
  constructor
  · intro u salt db hdup
    have hany : db.users.any (fun a => a.Email == u.Email) = true := by
      rw [List.any_eq_true]
      obtain ⟨a, ha, hae⟩ := hdup
      exact ⟨a, ha, by simp [hae]⟩
    by_cases hv : u.Name = "" ∨ u.Email = "" ∨ u.Password = ""
    · refine ⟨?_, ?_, ?_⟩ <;> simp [registerUser, hv]
    · have hreg : registerUser (some u) salt db =
          (⟨500, [("error", "Failed to save user to database")]⟩, db) := by
        simp [registerUser, if_neg hv, generate_defaultCost, dbCreate, hany]
      rw [hreg]
      exact ⟨by simp, rfl, fun h => h⟩
  · intro body salt db hnd
    cases body with
    | none => simpa [registerUser] using hnd
    | some u =>
      by_cases hv : u.Name = "" ∨ u.Email = "" ∨ u.Password = ""
      · simpa [registerUser, hv] using hnd
      · cases hany : db.users.any (fun a => a.Email == u.Email) with
        | true =>
          simpa [registerUser, if_neg hv, generate_defaultCost, dbCreate,
            hany] using hnd
        | false =>
          have hreg : (registerUser (some u) salt db).2 =
              ⟨db.users ++ [⟨db.nextID, u.Name, u.Email,
                .bcryptHash DefaultCost salt u.Password⟩], db.nextID + 1⟩ := by
            simp [registerUser, if_neg hv, generate_defaultCost, dbCreate, hany]
          rw [hreg]
          simp only [List.map_append, List.map_cons, List.map_nil]
          rw [List.nodup_append]
          refine ⟨hnd, List.nodup_singleton _, ?_⟩
          intro e hel her
          simp only [List.mem_singleton] at her
          subst her
          rw [List.mem_map] at hel
          obtain ⟨x, hx, hxe⟩ := hel
          have hne := (List.any_eq_false.mp hany) x hx
          simp only [Bool.not_eq_true, beq_eq_false_iff_ne, ne_eq] at hne
          exact hne hxe

/-- Witness for C2: re-registering Ann's email on the store holding Ann is
rejected, and registering a fresh email preserves email uniqueness. -/
theorem duplicate_register_rejected_and_email_uniqueness_preserved_witness :
    (registerUser (some ⟨"X", "ann@x.com", "other"⟩) 1 annDB).1.status ≠ 200 ∧
    ((registerUser (some ⟨"Bob", "bob@x.com", "pw"⟩) 2 annDB).2.users.map
      User.Email).Nodup :=
  ⟨(duplicate_register_rejected_and_email_uniqueness_preserved.1
      ⟨"X", "ann@x.com", "other"⟩ 1 annDB (by decide)).1,
   duplicate_register_rejected_and_email_uniqueness_preserved.2
      (some ⟨"Bob", "bob@x.com", "pw"⟩) 2 annDB (by decide)⟩

/-- C4 counterexample: when the store rejects a registration because the
email already exists, the handler returns the same InternalError response
(500, Failed to save user to database) as a storage failure, and not a
distinct ConflictError (409) as the claim states. -/
theorem duplicate_register_returns_409_counterexample :
    (registerUser (some ⟨"X", "ann@x.com", "pw"⟩) 1 annDB).1 =
      ⟨500, [("error", "Failed to save user to database")]⟩ ∧
    (registerUser (some ⟨"X", "ann@x.com", "pw"⟩) 1 annDB).1.status ≠ 409 := by
  decide

/-- C4 amended: a registration that passes validation but hits an
already-stored email returns the InternalError outcome (500, Failed to
save user to database), identical to any storage failure; the handler has
no distinct ConflictError. -/
theorem duplicate_register_returns_internal_error
    (u : RegisterBody) (salt : Nat) (db : DB)
    (hn : u.Name ≠ "") (he : u.Email ≠ "") (hp : u.Password ≠ "")
    (hdup : ∃ a ∈ db.users, a.Email = u.Email) :
    (registerUser (some u) salt db).1 =
      ⟨500, [("error", "Failed to save user to database")]⟩ := by
  have hv : ¬(u.Name = "" ∨ u.Email = "" ∨ u.Password = "") := by tauto
  have hany : db.users.any (fun a => a.Email == u.Email) = true := by
    rw [List.any_eq_true]
    obtain ⟨a, ha, hae⟩ := hdup
    exact ⟨a, ha, by simp [hae]⟩
  simp [registerUser, if_neg hv, generate_defaultCost, dbCreate, hany]

/-- Witness for amended C4 at a concrete duplicate registration. -/
theorem duplicate_register_returns_internal_error_witness :
    (registerUser (some ⟨"Y", "ann@x.com", "pw2"⟩) 3 annDB).1 =
      ⟨500, [("error", "Failed to save user to database")]⟩ :=
  duplicate_register_returns_internal_error ⟨"Y", "ann@x.com", "pw2"⟩ 3 annDB
    (by decide) (by decide) (by decide) (by decide)

/-- C8: the concrete HTTP scenario of the spec.  Registering Ann returns
200 with the success message; re-registering the same email is non-200;
login with the correct password returns 200 Login successful; login with a
wrong password or an unknown email returns the identical 401 response; and
no response body of the scenario contains a plaintext password (the stored
credential hash is a structured blob that never flows into any body, whose
values are fixed literal messages). -/
theorem concrete_scenario_http_contract :
    (registerUser (some ⟨"Ann", "ann@x.com", "s3cret"⟩) 0 emptyDB).1 =
      ⟨200, [("message", "User registered successfully")]⟩ ∧
    (registerUser (some ⟨"Ann", "ann@x.com", "s3cret"⟩) 1 annDB).1.status
        ≠ 200 ∧
    loginUser (some ⟨"ann@x.com", "s3cret"⟩) annDB =
      ⟨200, [("message", "Login successful")]⟩ ∧
    loginUser (some ⟨"ann@x.com", "wrong"⟩) annDB = unauthorizedResponse ∧
    loginUser (some ⟨"nobody@x.com", "s3cret"⟩) annDB = unauthorizedResponse ∧
    (∀ r ∈ [(registerUser (some ⟨"Ann", "ann@x.com", "s3cret"⟩) 0 emptyDB).1,
        (registerUser (some ⟨"Ann", "ann@x.com", "s3cret"⟩) 1 annDB).1,
        loginUser (some ⟨"ann@x.com", "s3cret"⟩) annDB,
        loginUser (some ⟨"ann@x.com", "wrong"⟩) annDB,
        loginUser (some ⟨"nobody@x.com", "s3cret"⟩) annDB],
      ∀ kv ∈ r.body,
        ¬("s3cret".data <:+: kv.2.data) ∧ ¬("wrong".data <:+: kv.2.data)) := by
  decide
